import Mathlib

/-!
Shallow embedding of Flask-Consent (flask_consent/__init__.py): the consent
state lifecycle (cookie decode, per-category get/set with a dirty flag,
finalization into a Set-Cookie header), the category registry, and the JSON
branch of the consent route handler. Machine-level Python behaviours that the
code relies on (exceptions from `json.loads`, unhashable set elements,
`str + non-str`, dict membership of unhashable keys) are made explicit with an
error monad. Datetimes are modelled as abstract ticks (`Nat`); the validity
duration `timedelta(days=months/12*365)` is represented exactly in seconds,
which is an integer because `86400/12` is.
-/

/-- Python scalar JSON values: the hashable values that may be members of a
Python `set` or keys of a `dict`. Numbers are restricted to integers. -/
inductive JScalar where
  | null : JScalar
  | jbool : Bool → JScalar
  | jnum : Int → JScalar
  | jstr : String → JScalar
deriving DecidableEq, Repr

/-- JSON values as produced by Python `json.loads`. -/
inductive Json where
  | scalar : JScalar → Json
  | jarr : List Json → Json
  | jobj : List (String × Json) → Json

/-- Python exceptions that the embedded code can raise. -/
inductive PyError where
  | typeError : PyError
  | jsonDecodeError : PyError
deriving DecidableEq, Repr

/-- Hashability in Python: scalars are hashable, lists and dicts are not.
`hash(v)` succeeds exactly on the `some` cases. -/
def Json.toHashable : Json → Option JScalar
  | .scalar v => some v
  | .jarr _ => none
  | .jobj _ => none

/-- `isinstance(v, list)`. -/
def Json.isList : Json → Bool
  | .jarr _ => true
  | _ => false

/-- Dict lookup on a decoded JSON object; with duplicate keys `json.loads`
keeps the last occurrence, so we search from the right. -/
def objLookup (kvs : List (String × Json)) (k : String) : Option Json :=
  (kvs.reverse.find? (fun p => p.1 == k)).map (fun p => p.2)

/-- Python `set.add` on the insertion-ordered model of a set. -/
def setAdd (l : List JScalar) (x : JScalar) : List JScalar :=
  if x ∈ l then l else l ++ [x]

/-- Python `set.remove` (callers only remove present elements). -/
def setRemove (l : List JScalar) (x : JScalar) : List JScalar :=
  l.filter (fun y => y ≠ x)

/-- `set(iterable)`: fold the elements in with `setAdd`. -/
def setFromList (xs : List JScalar) : List JScalar :=
  xs.foldl setAdd []

/-- Hash every element of a list, failing on the first unhashable one. -/
def toHashableAll : List Json → Option (List JScalar)
  | [] => some []
  | j :: rest =>
    match j.toHashable, toHashableAll rest with
    | some x, some l => some (x :: l)
    | _, _ => none

/-- `set(data['enabled'])`: raises TypeError when some element is unhashable. -/
def pySetOfList (xs : List Json) : Except PyError (List JScalar) :=
  match toHashableAll xs with
  | some l => .ok (setFromList l)
  | none => .error .typeError

/-- Abstract tick model of `datetime.fromisoformat`: a tick count rendered by
`datetime_isoformat` parses back; other strings fail with ValueError (`none`).
Stands in for the datetime library, which is external to the repository. -/
def datetime_fromisoformat (s : String) : Option Nat :=
  s.toNat?

/-- Abstract tick model of `datetime.isoformat`. -/
def datetime_isoformat (t : Nat) : String :=
  toString t

/-- The consent cookie as `ConsentData.__init__` sees it: absent (so
`request.cookies.get(name, '{}')` yields the empty object), present but
rejected by `json.loads` (which then raises), or present and parsed. -/
inductive CookieValue where
  | absent : CookieValue
  | unparseable : CookieValue
  | parsed : Json → CookieValue

/-- `ConsentCategory` dataclass. -/
structure ConsentCategory where
  name : String
  title : String
  description : String
  default : Bool
  is_required : Bool
deriving DecidableEq, Repr

/-- The per-request consent state held by `ConsentData`: `_last_updated`,
`_enabled` (a Python set, modelled as an insertion-ordered duplicate-free
list) and `_dirty`. -/
structure ConsentData where
  last_updated : Nat
  enabled : List JScalar
  dirty : Bool
deriving DecidableEq, Repr

/-- The configuration the state object reads from `app.config`. -/
structure ConsentConfig where
  cookie_name : String
  valid_for_months : Nat
deriving DecidableEq, Repr

/-- `init_app` defaults: cookie `_consent`, validity 12 months. -/
def defaultConfig : ConsentConfig :=
  { cookie_name := "_consent", valid_for_months := 12 }

/-- `ConsentExtensionState.valid_for = timedelta(days=months/12*365)`,
expressed exactly in seconds: `months/12*365` days is `months*365*86400/12`
seconds, and `12` divides `365*86400`, so nothing is lost. -/
def ConsentConfig.valid_for_seconds (cfg : ConsentConfig) : Nat :=
  cfg.valid_for_months * 365 * 86400 / 12

/-- The `.days` attribute of that timedelta: the whole-day part, i.e. the
floor of `months*365/12`. -/
def ConsentConfig.valid_for_days (cfg : ConsentConfig) : Nat :=
  cfg.valid_for_months * 365 / 12

/-- The `try: self._last_updated = datetime.fromisoformat(data['last_updated'])`
line on a dict `data`: a missing key (KeyError) or unparseable string
(ValueError) is caught and replaced by the current time, but `fromisoformat`
on a non-string raises TypeError, which is not caught. -/
def initLastUpdated (kvs : List (String × Json)) (now : Nat) :
    Except PyError Nat :=
  match objLookup kvs "last_updated" with
  | none => .ok now
  | some (.scalar (.jstr s)) =>
    match datetime_fromisoformat s with
    | some t => .ok t
    | none => .ok now
  | some _ => .error .typeError

/-- The `self._enabled = ...` line on a dict `data`. -/
def initEnabled (kvs : List (String × Json)) : Except PyError (List JScalar) :=
  match objLookup kvs "enabled" with
  | some (.jarr xs) => pySetOfList xs
  | _ => .ok []

/-- Body of `ConsentData.__init__` once `json.loads` produced a dict:
`_last_updated` first, then `_enabled`, then `_dirty = False`. -/
def initFromObj (kvs : List (String × Json)) (now : Nat) :
    Except PyError ConsentData :=
  match initLastUpdated kvs now with
  | .error e => .error e
  | .ok lu =>
    match initEnabled kvs with
    | .error e => .error e
    | .ok en => .ok { last_updated := lu, enabled := en, dirty := false }

/-- `data['last_updated']` on a decoded non-dict raises TypeError before any
field is read. -/
def initFromJson (data : Json) (now : Nat) : Except PyError ConsentData :=
  match data with
  | .jobj kvs => initFromObj kvs now
  | _ => .error PyError.typeError

/-- `ConsentData.__init__`: read the cookie (defaulting to `'{}'`), run it
through `json.loads` and build the state. -/
def ConsentData.init (cookie : CookieValue) (now : Nat) :
    Except PyError ConsentData :=
  match cookie with
  | .absent => initFromJson (.jobj []) now
  | .unparseable => .error .jsonDecodeError
  | .parsed v => initFromJson v now

/-- A get/set key: either a `ConsentCategory` object or a name string. -/
inductive ConsentKey where
  | cat : ConsentCategory → ConsentKey
  | name : String → ConsentKey

/-- The key normalisation at the top of `__getitem__`/`__setitem__`. -/
def ConsentKey.resolve : ConsentKey → String
  | .cat c => c.name
  | .name s => s

/-- `ConsentData.__getitem__`: `key in self._enabled`. -/
def ConsentData.getItem (d : ConsentData) (k : ConsentKey) : Bool :=
  decide (JScalar.jstr k.resolve ∈ d.enabled)

/-- `ConsentData.__setitem__`: add/remove only on an actual change, marking
the state dirty and refreshing `_last_updated`. -/
def ConsentData.setItem (d : ConsentData) (k : ConsentKey) (value : Bool)
    (now : Nat) : ConsentData :=
  if value = true ∧ JScalar.jstr k.resolve ∉ d.enabled then
    { last_updated := now, enabled := setAdd d.enabled (JScalar.jstr k.resolve),
      dirty := true }
  else if value = false ∧ JScalar.jstr k.resolve ∈ d.enabled then
    { last_updated := now, enabled := setRemove d.enabled (JScalar.jstr k.resolve),
      dirty := true }
  else d

/-- `ConsentData.is_stale`: true when the cookie is absent from the request,
otherwise when `last_updated + valid_for < now`. -/
def ConsentData.is_stale (d : ConsentData) (cfg : ConsentConfig)
    (requestCookieNames : List String) (now : Nat) : Bool :=
  if cfg.cookie_name ∉ requestCookieNames then true
  else decide (d.last_updated + cfg.valid_for_seconds < now)

/-- The fields of the `dict(enabled=list(self._enabled),
last_updated=self._last_updated.isoformat())` serialized by `finalize`. -/
def ConsentData.encodeKvs (d : ConsentData) : List (String × Json) :=
  [("enabled", .jarr (d.enabled.map .scalar)),
   ("last_updated", .scalar (.jstr (datetime_isoformat d.last_updated)))]

/-- The `json.dumps(...)` payload written by `finalize`. -/
def ConsentData.encode (d : ConsentData) : Json :=
  .jobj d.encodeKvs

/-- The arguments of the `response.set_cookie` call in `finalize`. -/
structure SetCookieHeader where
  cookie_name : String
  value : Json
  samesite : String
  max_age : Nat

/-- Read the `enabled` field back out of a written cookie payload. -/
def SetCookieHeader.enabledField (h : SetCookieHeader) : Option Json :=
  match h.value with
  | .jobj kvs => objLookup kvs "enabled"
  | _ => none

/-- `ConsentData.finalize`: emit a Set-Cookie only when dirty, with
`max_age = int(valid_for.days * 24 * 60 * 60)`. -/
def ConsentData.finalize (d : ConsentData) (cfg : ConsentConfig) :
    Option SetCookieHeader :=
  if d.dirty then
    some { cookie_name := cfg.cookie_name, value := d.encode,
           samesite := "None", max_age := cfg.valid_for_days * 86400 }
  else none

/-- `Consent.add_category`: `self._categories[name] = ConsentCategory(...)`
on an OrderedDict — replace in place if the name exists, else append. -/
def add_category (cats : List ConsentCategory) (c : ConsentCategory) :
    List ConsentCategory :=
  if cats.any (fun x => x.name == c.name) then
    cats.map (fun x => if x.name == c.name then c else x)
  else cats ++ [c]

/-- `Consent.add_standard_categories`. -/
def add_standard_categories (cats : List ConsentCategory) :
    List ConsentCategory :=
  add_category (add_category (add_category cats
    { name := "required", title := "Required",
      description := "These cookies are required for the site to function, like handling login (remembering who you are logged in as between page visits).",
      default := true, is_required := true })
    { name := "preferences", title := "Preferences",
      description := "These cookies are used for convenience functionality, like saving local preferences you have made.",
      default := true, is_required := false })
    { name := "analytics", title := "Analytics",
      description := "These cookies are used to track your page visits across the site and record some basic information about your browser. We use this information in order to see how our users are using the site, allowing us to focus improvements.",
      default := true, is_required := false }

/-- The registry built by the test apps: the three standard categories on a
fresh extension. -/
def standardCategories : List ConsentCategory :=
  add_standard_categories []

/-- `self._categories.keys()` in registration order. -/
def registeredNames (cats : List ConsentCategory) : List String :=
  cats.map (fun c => c.name)

/-- `cat in self._categories` for a payload element: dict membership hashes
the key (TypeError on lists/dicts); hashable non-strings are simply absent. -/
def py_dict_contains (names : List String) (v : Json) : Except PyError Bool :=
  match v with
  | .scalar (.jstr s) => .ok (decide (s ∈ names))
  | .scalar _ => .ok false
  | _ => .error .typeError

/-- `'invalid consent category specified: ' + cat`: `str + non-str` raises
TypeError. -/
def py_str_concat (s : String) (v : Json) : Except PyError String :=
  match v with
  | .scalar (.jstr t) => .ok (s ++ t)
  | _ => .error .typeError

/-- `cat in new` for a registered name against the payload list: list
membership via `==`, and a str equals no non-str. -/
def json_list_contains_str (xs : List Json) (s : String) : Bool :=
  xs.any (fun j =>
    match j with
    | .scalar (.jstr t) => t == s
    | _ => false)

/-- Whether a payload element is the name of a registered category. -/
def isRegisteredName (names : List String) : Json → Bool
  | .scalar (.jstr s) => decide (s ∈ names)
  | _ => false

/-- The validation loop of the POST branch: `ok none` when every element is a
registered category, `ok (some msg)` with the message for the first offender,
`error` when membership testing or message building raises. -/
def validatePayload (names : List String) : List Json →
    Except PyError (Option String)
  | [] => .ok none
  | cat :: rest =>
    match py_dict_contains names cat with
    | .error e => .error e
    | .ok true => validatePayload names rest
    | .ok false =>
      match py_str_concat "invalid consent category specified: " cat with
      | .ok m => .ok (some m)
      | .error e => .error e

/-- The mutation loop: `for cat in self._categories.keys():
request.consent[cat] = cat in new`. -/
def applyPayload (d : ConsentData) (names : List String) (new : List Json)
    (now : Nat) : ConsentData :=
  names.foldl
    (fun acc n => acc.setItem (.name n) (json_list_contains_str new n) now) d

/-- A `respond(...)` result: status, jsonify body, and the
Access-Control-Allow-Credentials header. -/
structure ConsentResponse where
  status : Nat
  body : Json
  allow_credentials : String

/-- `respond(400, msg=...)`. -/
def respondMsg (m : String) : ConsentResponse :=
  { status := 400, body := .jobj [("msg", .scalar (.jstr m))],
    allow_credentials := "true" }

/-- `respond(200, enabled=list(...), last_updated=...isoformat())`. -/
def respondState (d : ConsentData) : ConsentResponse :=
  { status := 200,
    body := .jobj [("enabled", .jarr (d.enabled.map .scalar)),
                   ("last_updated",
                    .scalar (.jstr (datetime_isoformat d.last_updated)))],
    allow_credentials := "true" }

inductive HttpMethod where
  | get : HttpMethod
  | post : HttpMethod

/-- The `application/json` branch of `Consent._handle_consent_route`: a POST
validates the payload, rejects non-lists and unknown names, and otherwise
sets every registered category to its membership in the payload; both a GET
and a successful POST answer with the (possibly updated) state. The second
component is the request's consent state afterwards. -/
def handle_consent_json (cats : List ConsentCategory) (method : HttpMethod)
    (payload : Json) (d : ConsentData) (now : Nat) :
    Except PyError ConsentResponse × ConsentData :=
  match method with
  | .get => (.ok (respondState d), d)
  | .post =>
    match payload with
    | .jarr new =>
      match validatePayload (registeredNames cats) new with
      | .error e => (.error e, d)
      | .ok (some m) => (.ok (respondMsg m), d)
      | .ok none =>
        let d2 := applyPayload d (registeredNames cats) new now
        (.ok (respondState d2), d2)
    | _ => (.ok (respondMsg "payload is not a list"), d)

/-- A sequence of `request.consent[k] = v` calls made during one request,
each with the `utcnow` instant at which it ran. -/
def applyCalls (d : ConsentData) (calls : List (ConsentKey × Bool × Nat)) :
    ConsentData :=
  calls.foldl (fun acc c => acc.setItem c.1 c.2.1 c.2.2) d

/-- Each call in the sequence assigns the value the category already has at
the moment of that call. -/
def NoopCalls (d : ConsentData) : List (ConsentKey × Bool × Nat) → Prop
  | [] => True
  | c :: rest => d.getItem c.1 = c.2.1 ∧ NoopCalls (d.setItem c.1 c.2.1 c.2.2) rest

/-- The cookie object's `last_updated` field is absent or a string: the
shapes whose mishaps `__init__` catches. -/
def luFieldOk (kvs : List (String × Json)) : Bool :=
  match objLookup kvs "last_updated" with
  | none => true
  | some (.scalar (.jstr _)) => true
  | some _ => false

/-- The cookie object's `enabled` field is absent, not a list, or a list of
hashable values, so that building the set cannot raise. -/
def enabledFieldListOk (kvs : List (String × Json)) : Bool :=
  match objLookup kvs "enabled" with
  | some (.jarr xs) => (toHashableAll xs).isSome
  | _ => true

/-- Whether the cookie object carries `enabled` as an actual list. -/
def enabledFieldIsList (kvs : List (String × Json)) : Bool :=
  match objLookup kvs "enabled" with
  | some (.jarr _) => true
  | _ => false

/-- The state of a fresh request that carried no consent cookie. -/
def freshConsent : ConsentData :=
  { last_updated := 0, enabled := [], dirty := false }

/-- A configuration with `CONSENT_VALID_FOR_MONTHS = 5`. -/
def fiveMonthConfig : ConsentConfig :=
  { cookie_name := "_consent", valid_for_months := 5 }

/-- A state decoded from a stale cookie that still names a category that is
no longer (or never was) registered. -/
def staleNameState : ConsentData :=
  { last_updated := 0, enabled := [JScalar.jstr "old"], dirty := false }

theorem mem_setAdd (l : List JScalar) (x y : JScalar) :
    y ∈ setAdd l x ↔ y = x ∨ y ∈ l := by
  unfold setAdd
  split_ifs with h
  · constructor
    · exact Or.inr
    · rintro (rfl | hy)
      · exact h
      · exact hy
  · simp [List.mem_append, or_comm]

theorem mem_setRemove (l : List JScalar) (x y : JScalar) :
    y ∈ setRemove l x ↔ y ∈ l ∧ y ≠ x := by
  simp [setRemove, List.mem_filter]

theorem mem_foldl_setAdd (l acc : List JScalar) (y : JScalar) :
    y ∈ l.foldl setAdd acc ↔ y ∈ acc ∨ y ∈ l := by
  induction l generalizing acc with
  | nil => simp
  | cons x xs ih =>
    rw [List.foldl_cons, ih, mem_setAdd]
    simp only [List.mem_cons]
    tauto

theorem mem_setFromList (l : List JScalar) (y : JScalar) :
    y ∈ setFromList l ↔ y ∈ l := by
  unfold setFromList
  rw [mem_foldl_setAdd]
  simp

theorem setItem_noop (d : ConsentData) (k : ConsentKey) (v : Bool) (now : Nat)
    (h : d.getItem k = v) : d.setItem k v now = d := by
  subst h
  unfold ConsentData.setItem ConsentData.getItem
  split_ifs with h1 h2
  · exact absurd (of_decide_eq_true h1.1) h1.2
  · exact absurd h2.2 (of_decide_eq_false h2.1)
  · rfl

theorem setItem_change (d : ConsentData) (k : ConsentKey) (v : Bool) (now : Nat)
    (h : d.getItem k ≠ v) :
    (d.setItem k v now).dirty = true ∧ (d.setItem k v now).last_updated = now := by
  unfold ConsentData.getItem at h
  unfold ConsentData.setItem
  split_ifs with h1 h2
  · exact ⟨rfl, rfl⟩
  · exact ⟨rfl, rfl⟩
  · exfalso
    cases v with
    | true =>
      have hm : JScalar.jstr k.resolve ∈ d.enabled := by
        by_contra hc
        exact h1 ⟨rfl, hc⟩
      exact h (decide_eq_true hm)
    | false =>
      have hm : JScalar.jstr k.resolve ∉ d.enabled := fun hc => h2 ⟨rfl, hc⟩
      exact h (decide_eq_false hm)

theorem mem_setItem_self (d : ConsentData) (k : ConsentKey) (v : Bool) (now : Nat) :
    JScalar.jstr k.resolve ∈ (d.setItem k v now).enabled ↔ v = true := by
  unfold ConsentData.setItem
  split_ifs with h1 h2
  · rw [mem_setAdd]
    simp [h1.1]
  · rw [mem_setRemove]
    simp [h2.1]
  · constructor
    · intro hm
      by_contra hv
      exact h2 ⟨Bool.eq_false_iff.mpr hv, hm⟩
    · intro hv
      by_contra hm
      exact h1 ⟨hv, hm⟩

theorem mem_setItem_other (d : ConsentData) (k : ConsentKey) (v : Bool) (now : Nat)
    (x : JScalar) (hx : x ≠ JScalar.jstr k.resolve) :
    x ∈ (d.setItem k v now).enabled ↔ x ∈ d.enabled := by
  unfold ConsentData.setItem
  split_ifs with h1 h2
  · rw [mem_setAdd]
    simp [hx]
  · rw [mem_setRemove]
    simp [hx]
  · exact Iff.rfl

theorem applyPayload_cons (d : ConsentData) (n : String) (ns : List String)
    (new : List Json) (now : Nat) :
    applyPayload d (n :: ns) new now
      = applyPayload (d.setItem (.name n) (json_list_contains_str new n) now)
          ns new now := rfl

theorem mem_applyPayload_untouched (d : ConsentData) (ns : List String)
    (new : List Json) (now : Nat) (x : JScalar)
    (hx : ∀ s, x = JScalar.jstr s → s ∉ ns) :
    x ∈ (applyPayload d ns new now).enabled ↔ x ∈ d.enabled := by
  induction ns generalizing d with
  | nil => exact Iff.rfl
  | cons n rest ih =>
    rw [applyPayload_cons]
    rw [ih _ (fun s hs hmem => hx s hs (List.mem_cons_of_mem n hmem))]
    refine mem_setItem_other _ _ _ _ _ (fun hc => ?_)
    exact hx n hc (List.mem_cons_self n rest)

theorem mem_applyPayload_name (d : ConsentData) (ns : List String)
    (new : List Json) (now : Nat) (n : String) (h : n ∈ ns) :
    JScalar.jstr n ∈ (applyPayload d ns new now).enabled
      ↔ json_list_contains_str new n = true := by
  induction ns generalizing d with
  | nil => cases h
  | cons m rest ih =>
    rw [applyPayload_cons]
    by_cases hn : n ∈ rest
    · exact ih _ hn
    · have hnm : n = m := by
        rcases List.mem_cons.mp h with h1 | h2
        · exact h1
        · exact absurd h2 hn
      subst hnm
      rw [mem_applyPayload_untouched _ _ _ _ _
        (fun s hs hmem => by
          cases hs
          exact hn (by simpa using hmem))]
      exact mem_setItem_self _ _ _ _

theorem applyPayload_getItem (d : ConsentData) (ns : List String)
    (new : List Json) (now : Nat) (n : String) (h : n ∈ ns) :
    (applyPayload d ns new now).getItem (.name n)
      = json_list_contains_str new n := by
  have hm := mem_applyPayload_name d ns new now n h
  unfold ConsentData.getItem
  cases hc : json_list_contains_str new n with
  | true => exact decide_eq_true (hm.mpr hc)
  | false =>
    refine decide_eq_false (fun hmem => ?_)
    rw [hc] at hm
    exact Bool.false_ne_true (hm.mp hmem)

theorem mem_applyPayload_sub (d : ConsentData) (ns : List String)
    (new : List Json) (now : Nat) (x : JScalar)
    (hx : x ∈ (applyPayload d ns new now).enabled) :
    x ∈ d.enabled ∨ ∃ n ∈ ns, x = JScalar.jstr n := by
  induction ns generalizing d with
  | nil => exact Or.inl hx
  | cons m rest ih =>
    rw [applyPayload_cons] at hx
    rcases ih _ hx with hmem | ⟨n, hn, rfl⟩
    · by_cases hc : x = JScalar.jstr m
      · exact Or.inr ⟨m, List.mem_cons_self m rest, hc⟩
      · rw [mem_setItem_other _ _ _ _ _ hc] at hmem
        exact Or.inl hmem
    · exact Or.inr ⟨n, List.mem_cons_of_mem m hn, rfl⟩

theorem validatePayload_ok (names : List String) (new : List Json)
    (h : ∀ j ∈ new, isRegisteredName names j = true) :
    validatePayload names new = .ok none := by
  induction new with
  | nil => rfl
  | cons j rest ih =>
    have hj := h j (List.mem_cons_self j rest)
    match j with
    | .scalar (.jstr s) =>
      have hs : decide (s ∈ names) = true := hj
      simp only [validatePayload, py_dict_contains, hs]
      exact ih (fun j hjm => h j (List.mem_cons_of_mem _ hjm))
    | .scalar .null => exact absurd hj (by simp [isRegisteredName])
    | .scalar (.jbool b) => exact absurd hj (by simp [isRegisteredName])
    | .scalar (.jnum n) => exact absurd hj (by simp [isRegisteredName])
    | .jarr xs => exact absurd hj (by simp [isRegisteredName])
    | .jobj kvs => exact absurd hj (by simp [isRegisteredName])

theorem validatePayload_first_bad (names : List String) (pre rest : List Json)
    (s : String) (hpre : ∀ j ∈ pre, isRegisteredName names j = true)
    (hs : s ∉ names) :
    validatePayload names (pre ++ Json.scalar (JScalar.jstr s) :: rest)
      = .ok (some ("invalid consent category specified: " ++ s)) := by
  induction pre with
  | nil =>
    have hds : decide (s ∈ names) = false := decide_eq_false hs
    simp [validatePayload, py_dict_contains, py_str_concat, hds]
  | cons j pre' ih =>
    have hj := hpre j (List.mem_cons_self j pre')
    match j with
    | .scalar (.jstr t) =>
      have ht : decide (t ∈ names) = true := hj
      simp only [List.cons_append, validatePayload, py_dict_contains, ht]
      exact ih (fun j hjm => hpre j (List.mem_cons_of_mem _ hjm))
    | .scalar .null => exact absurd hj (by simp [isRegisteredName])
    | .scalar (.jbool b) => exact absurd hj (by simp [isRegisteredName])
    | .scalar (.jnum n) => exact absurd hj (by simp [isRegisteredName])
    | .jarr xs => exact absurd hj (by simp [isRegisteredName])
    | .jobj kvs => exact absurd hj (by simp [isRegisteredName])

theorem handle_post_success (cats : List ConsentCategory) (d : ConsentData)
    (new : List Json) (now : Nat)
    (h : validatePayload (registeredNames cats) new = .ok none) :
    handle_consent_json cats .post (.jarr new) d now
      = (.ok (respondState (applyPayload d (registeredNames cats) new now)),
         applyPayload d (registeredNames cats) new now) := by
  simp [handle_consent_json, h]

theorem handle_post_reject (cats : List ConsentCategory) (d : ConsentData)
    (new : List Json) (now : Nat) (m : String)
    (h : validatePayload (registeredNames cats) new = .ok (some m)) :
    handle_consent_json cats .post (.jarr new) d now = (.ok (respondMsg m), d) := by
  simp [handle_consent_json, h]

theorem toHashableAll_map (l : List JScalar) :
    toHashableAll (l.map Json.scalar) = some l := by
  induction l with
  | nil => rfl
  | cons x xs ih => simp [toHashableAll, Json.toHashable, ih]

theorem objLookup_encodeKvs_lu (d : ConsentData) :
    objLookup d.encodeKvs "last_updated"
      = some (Json.scalar (JScalar.jstr (datetime_isoformat d.last_updated))) := rfl

theorem objLookup_encodeKvs_en (d : ConsentData) :
    objLookup d.encodeKvs "enabled"
      = some (Json.jarr (d.enabled.map .scalar)) := rfl

theorem initEnabled_encodeKvs (d : ConsentData) :
    initEnabled d.encodeKvs = .ok (setFromList d.enabled) := by
  unfold initEnabled
  rw [objLookup_encodeKvs_en]
  simp [pySetOfList, toHashableAll_map]

theorem initFromJson_encode (d : ConsentData) (now2 : Nat) :
    ∃ lu, initFromJson d.encode now2
      = .ok { last_updated := lu, enabled := setFromList d.enabled, dirty := false } := by
  have h1 : ∃ lu, initLastUpdated d.encodeKvs now2 = .ok lu := by
    unfold initLastUpdated
    rw [objLookup_encodeKvs_lu]
    dsimp only
    cases hiso : datetime_fromisoformat (datetime_isoformat d.last_updated) with
    | none => exact ⟨now2, rfl⟩
    | some t => exact ⟨t, rfl⟩
  obtain ⟨lu, hl⟩ := h1
  refine ⟨lu, ?_⟩
  show initFromObj d.encodeKvs now2
    = .ok { last_updated := lu, enabled := setFromList d.enabled, dirty := false }
  unfold initFromObj
  rw [hl, initEnabled_encodeKvs]

theorem initLastUpdated_ok (kvs : List (String × Json)) (now : Nat)
    (hl : luFieldOk kvs = true) :
    ∃ lu, initLastUpdated kvs now = .ok lu ∧
      (objLookup kvs "last_updated" = none → lu = now) := by
  unfold luFieldOk at hl
  unfold initLastUpdated
  cases hLU : objLookup kvs "last_updated" with
  | none => exact ⟨now, rfl, fun _ => rfl⟩
  | some v =>
    rw [hLU] at hl
    cases v with
    | scalar sc =>
      cases sc with
      | jstr s =>
        dsimp only
        cases hiso : datetime_fromisoformat s with
        | none => exact ⟨now, rfl, fun hx => Option.noConfusion hx⟩
        | some t => exact ⟨t, rfl, fun hx => Option.noConfusion hx⟩
      | null => simp at hl
      | jbool b => simp at hl
      | jnum n => simp at hl
    | jarr xs => simp at hl
    | jobj kvs2 => simp at hl

theorem initEnabled_ok (kvs : List (String × Json))
    (he : enabledFieldListOk kvs = true) :
    ∃ en, initEnabled kvs = .ok en ∧
      (enabledFieldIsList kvs = false → en = []) := by
  unfold enabledFieldListOk at he
  unfold initEnabled enabledFieldIsList
  cases hEN : objLookup kvs "enabled" with
  | none => exact ⟨[], rfl, fun _ => rfl⟩
  | some v =>
    rw [hEN] at he
    cases v with
    | jarr xs =>
      obtain ⟨l, hlx⟩ := Option.isSome_iff_exists.mp he
      refine ⟨setFromList l, ?_, fun hx => Bool.noConfusion hx⟩
      dsimp only
      simp [pySetOfList, hlx]
    | scalar sc => exact ⟨[], rfl, fun _ => rfl⟩
    | jobj kvs2 => exact ⟨[], rfl, fun _ => rfl⟩

theorem finalize_eq_some (d : ConsentData) (cfg : ConsentConfig)
    (hdr : SetCookieHeader) (h : d.finalize cfg = some hdr) :
    d.dirty = true ∧
    hdr = { cookie_name := cfg.cookie_name, value := d.encode,
            samesite := "None", max_age := cfg.valid_for_days * 86400 } := by
  unfold ConsentData.finalize at h
  split_ifs at h with hd
  exact ⟨hd, (Option.some.inj h).symm⟩

theorem handle_post_success_snd (cats : List ConsentCategory) (d : ConsentData)
    (new : List Json) (now : Nat)
    (h : validatePayload (registeredNames cats) new = .ok none) :
    (handle_consent_json cats .post (.jarr new) d now).2
      = applyPayload d (registeredNames cats) new now := by
  simp [handle_consent_json, h]

theorem applyCalls_noop (d : ConsentData) (calls : List (ConsentKey × Bool × Nat))
    (h : NoopCalls d calls) : applyCalls d calls = d := by
  induction calls generalizing d with
  | nil => rfl
  | cons c rest ih =>
    have h1 := setItem_noop d c.1 c.2.1 c.2.2 h.1
    have h2 := h.2
    rw [h1] at h2
    show applyCalls (d.setItem c.1 c.2.1 c.2.2) rest = d
    rw [h1]
    exact ih d h2

/-- C1: for a JSON POST to the consent route whose body is a list of
registered category names, the handler sets, for every registered category,
that category's membership in the enabled set to true exactly when its name
occurs in the payload; registered categories omitted from the payload end up
disabled, so the payload fully replaces the previous enabled set on the
registered categories. -/
theorem consent_post_replaces_enabled_set (cats : List ConsentCategory)
    (d : ConsentData) (new : List Json) (now : Nat)
    (h : ∀ j ∈ new, isRegisteredName (registeredNames cats) j = true) :
    ∀ n ∈ registeredNames cats,
      ((handle_consent_json cats .post (.jarr new) d now).2).getItem (.name n)
        = json_list_contains_str new n := by
  intro n hn
  rw [handle_post_success_snd cats d new now (validatePayload_ok _ _ h)]
  exact applyPayload_getItem _ _ _ _ _ hn

theorem consent_post_replaces_enabled_set_witness :
    ((handle_consent_json standardCategories .post
        (.jarr [Json.scalar (JScalar.jstr "required"),
                Json.scalar (JScalar.jstr "preferences")]) freshConsent 3).2).getItem
        (.name "analytics") = false ∧
    ((handle_consent_json standardCategories .post
        (.jarr [Json.scalar (JScalar.jstr "required"),
                Json.scalar (JScalar.jstr "preferences")]) freshConsent 3).2).getItem
        (.name "preferences") = true := by
  have ha := consent_post_replaces_enabled_set standardCategories freshConsent
    [Json.scalar (JScalar.jstr "required"), Json.scalar (JScalar.jstr "preferences")]
    3 (by decide) "analytics" (by decide)
  have hp := consent_post_replaces_enabled_set standardCategories freshConsent
    [Json.scalar (JScalar.jstr "required"), Json.scalar (JScalar.jstr "preferences")]
    3 (by decide) "preferences" (by decide)
  exact ⟨by rw [ha]; rfl, by rw [hp]; rfl⟩

/-- C2: the claim (and the repository's own tests) expect a fresh request
with no cookie to report each category's configured default, but the decoded
state starts with an empty enabled set, so every lookup returns false even
though all three standard categories default to true. -/
theorem fresh_request_ignores_category_defaults :
    ConsentData.init CookieValue.absent 0 = .ok freshConsent ∧
    (∀ c ∈ standardCategories, c.default = true) ∧
    (∀ c ∈ standardCategories, freshConsent.getItem (.cat c) = false) :=
  ⟨rfl, by decide, by decide⟩

/-- C3 counterexample: decoding is not total — a cookie that `json.loads`
cannot parse raises, and so does a cookie whose JSON is not an object. -/
theorem decode_raises_on_unparseable_cookie :
    ConsentData.init CookieValue.unparseable 0 = .error PyError.jsonDecodeError ∧
    ConsentData.init (.parsed (Json.jarr [])) 0 = .error PyError.typeError :=
  ⟨rfl, rfl⟩

/-- C3 amended: construction succeeds, degrading to the empty enabled set
and/or the current time, for an absent cookie and for any JSON-object cookie
whose `last_updated` is absent or a (possibly malformed) string and whose
`enabled` is absent, not a list, or a list of hashable values; other cookie
values (non-JSON, non-object JSON, non-string `last_updated`, unhashable
`enabled` elements) raise instead. -/
theorem decode_tolerates_object_cookies (now : Nat) (kvs : List (String × Json))
    (hl : luFieldOk kvs = true) (he : enabledFieldListOk kvs = true) :
    ConsentData.init CookieValue.absent now
      = .ok { last_updated := now, enabled := [], dirty := false } ∧
    ∃ d, ConsentData.init (.parsed (.jobj kvs)) now = .ok d ∧ d.dirty = false ∧
      (objLookup kvs "last_updated" = none → d.last_updated = now) ∧
      (enabledFieldIsList kvs = false → d.enabled = []) := by
  obtain ⟨lu, hlu, hlu2⟩ := initLastUpdated_ok kvs now hl
  obtain ⟨en, hen, hen2⟩ := initEnabled_ok kvs he
  refine ⟨rfl, ⟨{ last_updated := lu, enabled := en, dirty := false },
    ?_, rfl, hlu2, hen2⟩⟩
  show initFromObj kvs now = _
  unfold initFromObj
  rw [hlu, hen]

theorem decode_tolerates_object_cookies_witness :
    (ConsentData.init CookieValue.absent 9
      = .ok { last_updated := 9, enabled := [], dirty := false } ∧
    ∃ d, ConsentData.init
        (.parsed (.jobj [("last_updated", Json.scalar (JScalar.jstr "garbage")),
                         ("enabled", Json.scalar (JScalar.jbool true))])) 9
      = .ok d ∧ d.dirty = false ∧
      (objLookup [("last_updated", Json.scalar (JScalar.jstr "garbage")),
                  ("enabled", Json.scalar (JScalar.jbool true))] "last_updated"
        = none → d.last_updated = 9) ∧
      (enabledFieldIsList [("last_updated", Json.scalar (JScalar.jstr "garbage")),
                           ("enabled", Json.scalar (JScalar.jbool true))] = false →
        d.enabled = [])) :=
  decode_tolerates_object_cookies 9
    [("last_updated", Json.scalar (JScalar.jstr "garbage")),
     ("enabled", Json.scalar (JScalar.jbool true))] (by decide) (by decide)

/-- C4: a JSON POST whose body is not a list is rejected with the client
error message payload-is-not-a-list and no state change; a list whose first
offending element is an unregistered name string is rejected with the client
error naming that first offender, again with no state change (all names are
validated before any category is mutated). -/
theorem consent_post_validation_errors (cats : List ConsentCategory)
    (d : ConsentData) (payload : Json) (now : Nat) (pre rest : List Json)
    (s : String) :
    (payload.isList = false →
      handle_consent_json cats .post payload d now
        = (.ok (respondMsg "payload is not a list"), d)) ∧
    ((∀ j ∈ pre, isRegisteredName (registeredNames cats) j = true) →
      s ∉ registeredNames cats →
      handle_consent_json cats .post
          (.jarr (pre ++ Json.scalar (JScalar.jstr s) :: rest)) d now
        = (.ok (respondMsg ("invalid consent category specified: " ++ s)), d)) := by
  constructor
  · intro hp
    cases payload with
    | jarr xs => simp [Json.isList] at hp
    | scalar v => rfl
    | jobj kvs => rfl
  · intro hpre hs
    exact handle_post_reject _ _ _ _ _ (validatePayload_first_bad _ _ _ _ hpre hs)

theorem consent_post_validation_errors_witness :
    handle_consent_json standardCategories .post (.jobj []) freshConsent 3
      = (.ok (respondMsg "payload is not a list"), freshConsent) ∧
    handle_consent_json standardCategories .post
        (.jarr [Json.scalar (JScalar.jstr "required"),
                Json.scalar (JScalar.jstr "foo")]) freshConsent 3
      = (.ok (respondMsg ("invalid consent category specified: " ++ "foo")),
         freshConsent) := by
  constructor
  · exact (consent_post_validation_errors standardCategories freshConsent
      (.jobj []) 3 [] [] "x").1 rfl
  · have h := (consent_post_validation_errors standardCategories freshConsent
      (.jobj []) 3 [Json.scalar (JScalar.jstr "required")] [] "foo").2
      (by decide) (by decide)
    simpa using h

/-- C5: `Set` is idempotent with respect to the dirty flag — assigning the
value a category already has changes neither the enabled set, the dirty flag
nor `last_updated`; a sequence of such no-op assignments on a clean state
leaves finalization without a Set-Cookie header; and an assignment that does
change membership marks the state dirty and refreshes `last_updated`. -/
theorem setitem_idempotent_and_dirty_tracking (d : ConsentData) (k : ConsentKey)
    (v : Bool) (now : Nat) (cfg : ConsentConfig)
    (calls : List (ConsentKey × Bool × Nat)) :
    (d.getItem k = v → d.setItem k v now = d) ∧
    (d.getItem k ≠ v →
      (d.setItem k v now).dirty = true ∧ (d.setItem k v now).last_updated = now) ∧
    (d.dirty = false → d.finalize cfg = none) ∧
    (d.dirty = false → NoopCalls d calls →
      (applyCalls d calls).finalize cfg = none) := by
  refine ⟨setItem_noop d k v now, setItem_change d k v now, ?_, ?_⟩
  · intro hd
    unfold ConsentData.finalize
    simp [hd]
  · intro hd hnoop
    rw [applyCalls_noop d calls hnoop]
    unfold ConsentData.finalize
    simp [hd]

theorem setitem_idempotent_and_dirty_tracking_witness :
    (ConsentData.setItem
        { last_updated := 7, enabled := [JScalar.jstr "required"], dirty := false }
        (.name "required") true 9
      = { last_updated := 7, enabled := [JScalar.jstr "required"], dirty := false }) ∧
    ((ConsentData.setItem
        { last_updated := 7, enabled := [JScalar.jstr "required"], dirty := false }
        (.name "required") false 9).dirty = true ∧
     (ConsentData.setItem
        { last_updated := 7, enabled := [JScalar.jstr "required"], dirty := false }
        (.name "required") false 9).last_updated = 9) ∧
    (ConsentData.finalize
        { last_updated := 7, enabled := [JScalar.jstr "required"], dirty := false }
        defaultConfig = none) ∧
    (ConsentData.finalize
        (applyCalls
          { last_updated := 7, enabled := [JScalar.jstr "required"], dirty := false }
          [(.name "required", true, 9)])
        defaultConfig = none) := by
  refine ⟨?_, ?_, ?_, ?_⟩
  · exact (setitem_idempotent_and_dirty_tracking
      { last_updated := 7, enabled := [JScalar.jstr "required"], dirty := false }
      (.name "required") true 9 defaultConfig []).1 (by decide)
  · exact (setitem_idempotent_and_dirty_tracking
      { last_updated := 7, enabled := [JScalar.jstr "required"], dirty := false }
      (.name "required") false 9 defaultConfig []).2.1 (by decide)
  · exact (setitem_idempotent_and_dirty_tracking
      { last_updated := 7, enabled := [JScalar.jstr "required"], dirty := false }
      (.name "required") true 9 defaultConfig []).2.2.1 rfl
  · exact (setitem_idempotent_and_dirty_tracking
      { last_updated := 7, enabled := [JScalar.jstr "required"], dirty := false }
      (.name "required") true 9 defaultConfig
      [(.name "required", true, 9)]).2.2.2 rfl ⟨by decide, trivial⟩

/-- C6 counterexample: a state decoded from a stale cookie naming the
unregistered category old, updated through the consent route with the valid
payload [required], is written back with old still in the serialized enabled
set, which is therefore not a subset of the registered names. -/
theorem stale_name_written_back :
    ConsentData.init
        (.parsed (.jobj [("enabled", .jarr [.scalar (.jstr "old")])])) 0
      = .ok staleNameState ∧
    (handle_consent_json standardCategories .post
        (.jarr [Json.scalar (JScalar.jstr "required")]) staleNameState 5).2
      = { last_updated := 5,
          enabled := [JScalar.jstr "old", JScalar.jstr "required"],
          dirty := true } ∧
    ConsentData.finalize
        { last_updated := 5,
          enabled := [JScalar.jstr "old", JScalar.jstr "required"],
          dirty := true } defaultConfig
      = some { cookie_name := "_consent",
               value := .jobj
                 [("enabled", .jarr [.scalar (.jstr "old"),
                                     .scalar (.jstr "required")]),
                  ("last_updated", .scalar (.jstr "5"))],
               samesite := "None", max_age := 31536000 } ∧
    "old" ∉ registeredNames standardCategories :=
  ⟨rfl, rfl, rfl, by decide⟩

/-- C6 amended: when the enabled set read from the request's cookie is itself
a subset of the registered names, the cookie written after a consent-route
update serializes an enabled set that is again a subset of the registered
names; names from a stale cookie that are no longer registered are preserved
rather than filtered, so the subset property only holds under that premise. -/
theorem written_enabled_subset_of_registered (cats : List ConsentCategory)
    (d : ConsentData) (new : List Json) (now : Nat) (cfg : ConsentConfig)
    (hdr : SetCookieHeader)
    (hsub : ∀ x ∈ d.enabled, ∃ n ∈ registeredNames cats, x = JScalar.jstr n)
    (hvalid : ∀ j ∈ new, isRegisteredName (registeredNames cats) j = true)
    (hfin : ((handle_consent_json cats .post (.jarr new) d now).2).finalize cfg
      = some hdr) :
    ∃ L : List JScalar, hdr.enabledField = some (.jarr (L.map Json.scalar)) ∧
      ∀ x ∈ L, ∃ n ∈ registeredNames cats, x = JScalar.jstr n := by
  rw [handle_post_success_snd cats d new now (validatePayload_ok _ _ hvalid)] at hfin
  obtain ⟨hd, rfl⟩ := finalize_eq_some _ _ _ hfin
  refine ⟨(applyPayload d (registeredNames cats) new now).enabled,
    objLookup_encodeKvs_en _, ?_⟩
  intro x hx
  rcases mem_applyPayload_sub d _ new now x hx with hmem | hns
  · exact hsub x hmem
  · exact hns

theorem written_enabled_subset_of_registered_witness :
    ∃ L : List JScalar, SetCookieHeader.enabledField
        { cookie_name := "_consent",
          value := ConsentData.encode
            { last_updated := 5, enabled := [JScalar.jstr "required"],
              dirty := true },
          samesite := "None", max_age := 31536000 }
      = some (.jarr (L.map Json.scalar)) ∧
      ∀ x ∈ L, ∃ n ∈ registeredNames standardCategories, x = JScalar.jstr n :=
  written_enabled_subset_of_registered standardCategories freshConsent
    [Json.scalar (JScalar.jstr "required")] 5 defaultConfig
    { cookie_name := "_consent",
      value := ConsentData.encode
        { last_updated := 5, enabled := [JScalar.jstr "required"], dirty := true },
      samesite := "None", max_age := 31536000 }
    (fun x hx => absurd hx (List.not_mem_nil x)) (by decide) rfl

/-- C7: `is_stale` returns true exactly when the consent cookie was absent
from the request, or when `last_updated` plus the configured validity
duration is strictly before the current time. -/
theorem is_stale_iff (d : ConsentData) (cfg : ConsentConfig)
    (requestCookieNames : List String) (now : Nat) :
    d.is_stale cfg requestCookieNames now = true ↔
      (cfg.cookie_name ∉ requestCookieNames ∨
       d.last_updated + cfg.valid_for_seconds < now) := by
  unfold ConsentData.is_stale
  split_ifs with h
  · simp [h]
  · simp [h]

/-- C8: re-encoding a decoded state and decoding it again succeeds and
reproduces exactly the same enabled set, so decode-encode-decode agrees with
decode on the enabled set. -/
theorem encode_decode_roundtrip (x : CookieValue) (now now2 : Nat)
    (d : ConsentData) (h : ConsentData.init x now = .ok d) :
    ∃ d2, ConsentData.init (.parsed d.encode) now2 = .ok d2 ∧
      ∀ y : JScalar, y ∈ d2.enabled ↔ y ∈ d.enabled := by
  obtain ⟨lu, hl⟩ := initFromJson_encode d now2
  exact ⟨{ last_updated := lu, enabled := setFromList d.enabled, dirty := false },
    hl, fun y => mem_setFromList d.enabled y⟩

theorem encode_decode_roundtrip_witness :
    ∃ d2, ConsentData.init
        (.parsed (ConsentData.encode
          { last_updated := 0, enabled := [JScalar.jstr "a"], dirty := false })) 1
      = .ok d2 ∧
      ∀ y : JScalar, y ∈ d2.enabled ↔
        y ∈ ({ last_updated := 0, enabled := [JScalar.jstr "a"],
               dirty := false } : ConsentData).enabled :=
  encode_decode_roundtrip
    (.parsed (.jobj [("enabled", .jarr [.scalar (.jstr "a")])])) 0 1
    { last_updated := 0, enabled := [JScalar.jstr "a"], dirty := false } rfl

/-- C9 counterexample: with `CONSENT_VALID_FOR_MONTHS = 5` the cookie is
written with Max-Age 13132800 seconds (152 whole days), while the configured
validity is 13140000 seconds, so Max-Age does not equal the validity in
seconds. -/
theorem max_age_differs_from_validity_in_seconds :
    ConsentData.finalize { last_updated := 0, enabled := [], dirty := true }
        fiveMonthConfig
      = some { cookie_name := "_consent",
               value := ConsentData.encode
                 { last_updated := 0, enabled := [], dirty := true },
               samesite := "None", max_age := 13132800 } ∧
    fiveMonthConfig.valid_for_seconds = 13140000 ∧
    (13132800 : Nat) ≠ 13140000 :=
  ⟨rfl, rfl, by decide⟩

/-- C9 amended: the validity duration is exactly months/12*365 days (12 times
the validity in seconds is months*365*86400), but the Max-Age written on the
cookie is the whole-day part of that duration times 86400, which equals the
validity in seconds exactly when 12 divides the configured months. -/
theorem max_age_is_whole_days_of_validity (cfg : ConsentConfig)
    (d : ConsentData) (hdr : SetCookieHeader) (h : d.finalize cfg = some hdr) :
    12 * cfg.valid_for_seconds = cfg.valid_for_months * 365 * 86400 ∧
    hdr.max_age = cfg.valid_for_months * 365 / 12 * 86400 ∧
    (hdr.max_age = cfg.valid_for_seconds ↔ 12 ∣ cfg.valid_for_months) := by
  obtain ⟨hd, rfl⟩ := finalize_eq_some d cfg hdr h
  unfold ConsentConfig.valid_for_seconds ConsentConfig.valid_for_days
  refine ⟨?_, rfl, ?_⟩
  · omega
  · show cfg.valid_for_months * 365 / 12 * 86400
      = cfg.valid_for_months * 365 * 86400 / 12 ↔ 12 ∣ cfg.valid_for_months
    omega

theorem max_age_is_whole_days_of_validity_witness :
    12 * defaultConfig.valid_for_seconds
      = defaultConfig.valid_for_months * 365 * 86400 ∧
    ({ cookie_name := "_consent",
       value := ConsentData.encode
         { last_updated := 0, enabled := [], dirty := true },
       samesite := "None", max_age := 31536000 } : SetCookieHeader).max_age
      = defaultConfig.valid_for_months * 365 / 12 * 86400 ∧
    (({ cookie_name := "_consent",
        value := ConsentData.encode
          { last_updated := 0, enabled := [], dirty := true },
        samesite := "None", max_age := 31536000 } : SetCookieHeader).max_age
      = defaultConfig.valid_for_seconds ↔ 12 ∣ defaultConfig.valid_for_months) :=
  max_age_is_whole_days_of_validity defaultConfig
    { last_updated := 0, enabled := [], dirty := true }
    { cookie_name := "_consent",
      value := ConsentData.encode { last_updated := 0, enabled := [], dirty := true },
      samesite := "None", max_age := 31536000 } rfl

/-- C10: a JSON POST whose list body contains a non-string element that is
not a registered category does not produce the documented 400 response —
building the error message by concatenating the element to a string raises
TypeError instead. -/
theorem invalid_nonstring_category_raises :
    handle_consent_json standardCategories .post
        (.jarr [Json.scalar (JScalar.jnum 5)]) freshConsent 3
      = (.error PyError.typeError, freshConsent) := rfl
